import Mathlib

/-!
Shallow embedding of the streaming core of the camera driver
(src/src/camera.cpp, namespace rsimpl).

The embedding follows camera.cpp line by line.  Declarations that the
repository defines outside src/ (camera.h, image.cpp, types.h) are
modelled from the specification and carry a doc comment starting with
the words Modelled from the spec.

Machine integers are modelled as Nat (all quantities involved are
nonnegative sizes, counts and rates); subdevice routing uses Int because
the catalog marks an unsupported stream with -1.  Exceptions are
modelled as an explicit `RsError` result paired with the state the
object holds at the throw point.  The busy-wait in wait_all_streams is
modelled with an explicit fuel parameter together with a producer event
schedule, and the calibration fetch carries a ghost invocation counter
so that once-only fetching is observable.
-/

namespace rsimpl

/-- Modelled from the spec: the closed enumeration of logical streams
(camera.h is not under src); the spec names color, depth and infrared
streams, and this camera generation exposes a second infrared stream. -/
inductive rs_stream where
  | depth
  | color
  | infrared
  | infrared2
deriving DecidableEq, Repr

/-- Modelled from the spec: catalog-defined named presets resolving to a
concrete stream request (camera.h is not under src). -/
inductive rs_preset where
  | best_quality
  | largest_image
  | highest_framerate
deriving DecidableEq, Repr

/-- Modelled from the spec: pixel formats of delivered images (camera.h
is not under src). -/
inductive rs_format where
  | z16
  | yuyv
  | rgb8
  | y8
deriving DecidableEq, Repr

/-- The fixed traversal order of the per-logical-stream arrays, mirroring
the enum order used to index `requests` and `streams` in camera.cpp. -/
def stream_list : List rs_stream := [.depth, .color, .infrared, .infrared2]

/-- One user stream request, rsimpl::stream_request: enabled flag plus
requested width, height, format and framerate. -/
structure stream_request where
  enabled : Bool
  width : Nat
  height : Nat
  format : rs_format
  fps : Nat
deriving DecidableEq, Repr

/-- The value-initialized stream_request of the rs_camera constructor:
disabled, all numeric fields zero. -/
def stream_request.zero : stream_request :=
  { enabled := false, width := 0, height := 0, format := .z16, fps := 0 }

/-- One stream as delivered by a particular hardware mode; catalog data
(stream-id, width, height, format, fps, intrinsics index). -/
structure stream_mode where
  stream : rs_stream
  width : Nat
  height : Nat
  format : rs_format
  fps : Nat
  intrinsics_index : Nat
deriving DecidableEq, Repr

/-- One catalog hardware mode of a subdevice: the subdevice index, the
hardware mode parameters, and the stream modes it delivers.  The unpack
and frame-number-decode functions of the source are not needed by the
embedded operations (the producer callback is modelled by
`stream_buffer.deliver` below) and are omitted. -/
structure subdevice_mode where
  subdevice : Nat
  width : Nat
  height : Nat
  format : rs_format
  fps : Nat
  streams : List stream_mode
deriving DecidableEq, Repr

/-- Modelled from the spec: get_image_size (image.cpp is not under src)
computes the pixel size implied by a mode, a fixed per-format byte count
times the resolution. -/
def get_image_size (width height : Nat) (format : rs_format) : Nat :=
  match format with
  | .z16 => width * height * 2
  | .yuyv => width * height * 2
  | .rgb8 => width * height * 3
  | .y8 => width * height

/-- One image slot of a stream buffer: its allocated pixel size and its
frame sequence number.  Pixel contents are not observed by any embedded
operation and are not modelled. -/
structure image where
  size : Nat
  number : Nat
deriving DecidableEq, Repr

/-- rs_camera::stream_buffer: the assigned stream mode, the three image
slots and the updated flag.  The mutex only guards the swap and carries
no additional state. -/
structure stream_buffer where
  mode : stream_mode
  front : image
  middle : image
  back : image
  updated : Bool
deriving DecidableEq, Repr

/-- A default-constructed stream_buffer, as produced by
make_shared before set_mode runs. -/
def stream_buffer.empty : stream_buffer :=
  { mode := { stream := .depth, width := 0, height := 0, format := .z16,
              fps := 0, intrinsics_index := 0 }
    front := { size := 0, number := 0 }
    middle := { size := 0, number := 0 }
    back := { size := 0, number := 0 }
    updated := false }

/-- stream_buffer::set_mode: store the mode, resize front to the image
size implied by the mode with frame number 0, copy it into back and
middle, clear the updated flag.  The previous buffer contents do not
survive into any modelled field. -/
def stream_buffer.set_mode (m : stream_mode) (_b : stream_buffer) : stream_buffer :=
  let fr : image := { size := get_image_size m.width m.height m.format, number := 0 }
  { mode := m, front := fr, middle := fr, back := fr, updated := false }

/-- stream_buffer::update_image: if the updated flag is clear, report no
new data and change nothing; otherwise swap front and middle, clear the
flag, and report new data. -/
def stream_buffer.update_image (b : stream_buffer) : Bool × stream_buffer :=
  if b.updated = false then (false, b)
  else (true, { b with front := b.middle, middle := b.front, updated := false })

/-- The producer side of the triple buffer, from the capture callback in
subdevice_handle::start_streaming: write the decoded frame into the back
slot (stamping the decoded frame number when a decoder is present,
modelled by the optional argument), then swap back and middle and set
the updated flag.  Writing through the destination pointer never changes
the allocated size of the back slot. -/
def stream_buffer.deliver (num : Option Nat) (b : stream_buffer) : stream_buffer :=
  let written : image := { b.back with number := num.getD b.back.number }
  { b with back := b.middle, middle := written, updated := true }

/-- Modelled from the spec: intrinsics are opaque per-stream-mode
calibration parameters; only their identity matters to the core. -/
structure rs_intrinsics where
  data : Nat
deriving DecidableEq, Repr, Inhabited

/-- Modelled from the spec: a rigid transform (rotation and translation)
giving one stream coordinate frame in terms of another (types.h is not
under src).  Scalars are exact rationals standing in for floats. -/
structure pose where
  orientation : Matrix (Fin 3) (Fin 3) ℚ
  position : Fin 3 → ℚ

/-- Modelled from the spec: pose composition, rotation composed with
rotation and translation carried through. -/
def pose.mul (a b : pose) : pose :=
  { orientation := a.orientation * b.orientation
    position := a.orientation.mulVec b.position + a.position }

/-- Modelled from the spec: the inverse of a rigid transform, the
transposed rotation applied to the negated translation. -/
def pose.inv (a : pose) : pose :=
  { orientation := a.orientation.transpose
    position := -(a.orientation.transpose.mulVec a.position) }

/-- rs_extrinsics: relative rotation and translation between two stream
coordinate frames. -/
structure rs_extrinsics where
  rotation : Matrix (Fin 3) (Fin 3) ℚ
  translation : Fin 3 → ℚ

/-- Composition of two extrinsic transforms, applying the left transform
after the right one exactly as `pose.mul` does. -/
def rs_extrinsics.comp (a b : rs_extrinsics) : rs_extrinsics :=
  { rotation := a.rotation * b.rotation
    translation := a.rotation.mulVec b.translation + a.translation }

/-- The identity extrinsic transform. -/
def rs_extrinsics.id : rs_extrinsics :=
  { rotation := 1, translation := 0 }

/-- Calibration data: the intrinsics table indexed by
stream_mode.intrinsics_index, and one pose per logical stream. -/
structure calibration where
  intrinsics : List rs_intrinsics
  stream_poses : rs_stream → pose

/-- The value-initialized calibration of the rs_camera constructor:
empty intrinsics table, zero poses. -/
def calibration.empty : calibration :=
  { intrinsics := [], stream_poses := fun _ => { orientation := 0, position := 0 } }

/-- The static per-camera-model information consumed by the core.  The
fields `interstream_constraints` and `calib_data` are modelled from the
spec: the former is the catalog-defined constraint-enforcement pass run
once over the requests before per-subdevice selection (its concrete
rules are out of scope and it is kept abstract), the latter is the
result of the once-only calibration retrieval function. -/
structure static_camera_info where
  subdevice_modes : List subdevice_mode
  stream_subdevices : rs_stream → Int
  presets : rs_stream → rs_preset → stream_request
  interstream_constraints : (rs_stream → stream_request) → (rs_stream → stream_request)
  calib_data : calibration

/-- The error taxonomy of the spec; each carries the thrown message. -/
inductive RsError where
  | configurationError (msg : String)
  | stateError (msg : String)
  | hardwareError (msg : String)
deriving DecidableEq, Repr

/-- Whether an error is a configuration error. -/
def RsError.isConfigurationError : RsError → Bool
  | .configurationError _ => true
  | _ => false

/-- The open state of one subdevice handle: its programmed mode and
whether it is streaming.  The hardware session itself is external. -/
structure subdevice_state where
  mode : subdevice_mode
  streaming : Bool
deriving DecidableEq, Repr

/-- The rs_camera state: the request array, the per-subdevice handle
slots, the per-logical-stream buffer slots, the calibration, the
first-handle-opened flag and the is-capturing flag.  `fetch_count` is a
ghost counter of calibration retrieval invocations. -/
structure rs_camera where
  requests : rs_stream → stream_request
  subdevices : List (Option subdevice_state)
  streams : rs_stream → Option stream_buffer
  calib : calibration
  first_handle : Bool
  is_capturing : Bool
  fetch_count : Nat

/-- The largest subdevice index appearing in the catalog, from the
constructor loop over camera_info.subdevice_modes. -/
def max_subdevice (info : static_camera_info) : Nat :=
  info.subdevice_modes.foldl (fun m md => max m md.subdevice) 0

/-- The rs_camera constructor: all requests zeroed, empty calibration,
one closed subdevice slot per index up to the catalog maximum, no
buffers, flags clear. -/
def rs_camera.init (info : static_camera_info) : rs_camera :=
  { requests := fun _ => stream_request.zero
    subdevices := List.replicate (max_subdevice info + 1) none
    streams := fun _ => none
    calib := calibration.empty
    first_handle := false
    is_capturing := false
    fetch_count := 0 }

/-- The number of open subdevice handles. -/
def rs_camera.open_count (c : rs_camera) : Nat :=
  (c.subdevices.filter Option.isSome).length

/-- rs_camera::enable_stream: rejected once any subdevice handle has
been opened, rejected when the catalog routes the stream to no
subdevice, otherwise records the request in the slot of the stream. -/
def enable_stream (info : static_camera_info) (c : rs_camera) (s : rs_stream)
    (width height : Nat) (format : rs_format) (fps : Nat) :
    Except RsError Unit × rs_camera :=
  if c.first_handle then
    (.error (.configurationError "streams cannot be reconfigured after having called start_capture"), c)
  else if info.stream_subdevices s = -1 then
    (.error (.configurationError "unsupported stream"), c)
  else
    let req : stream_request :=
      { enabled := true, width := width, height := height, format := format, fps := fps }
    (.ok (), { c with requests := fun t => if t = s then req else c.requests t })

/-- rs_camera::enable_stream_preset: rejected once any subdevice handle
has been opened, rejected when the catalog preset entry is not enabled,
otherwise records the preset request in the slot of the stream. -/
def enable_stream_preset (info : static_camera_info) (c : rs_camera)
    (s : rs_stream) (p : rs_preset) : Except RsError Unit × rs_camera :=
  if c.first_handle then
    (.error (.configurationError "streams cannot be reconfigured after having called start_capture"), c)
  else if (info.presets s p).enabled = false then
    (.error (.configurationError "unsupported stream"), c)
  else
    (.ok (), { c with requests := fun t =>
      if t = s then info.presets s p else c.requests t })

/-- Whether one stream mode satisfies a request: matching width, height,
format and fps. -/
def request_matches (req : stream_request) (sm : stream_mode) : Bool :=
  decide (sm.width = req.width) && decide (sm.height = req.height) &&
  decide (sm.format = req.format) && decide (sm.fps = req.fps)

/-- Whether at least one enabled request is routed to subdevice i. -/
def routed_enabled (info : static_camera_info)
    (reqs : rs_stream → stream_request) (i : Nat) : Bool :=
  stream_list.any (fun s => (reqs s).enabled && decide (info.stream_subdevices s = (i : Int)))

/-- Whether a catalog mode belongs to subdevice i and its constituent
stream modes satisfy every enabled request routed to subdevice i. -/
def mode_satisfies (info : static_camera_info)
    (reqs : rs_stream → stream_request) (i : Nat) (m : subdevice_mode) : Bool :=
  decide (m.subdevice = i) &&
  stream_list.all (fun s =>
    !((reqs s).enabled && decide (info.stream_subdevices s = (i : Int))) ||
    m.streams.any (fun sm => decide (sm.stream = s) && request_matches (reqs s) sm))

/-- Modelled from the spec: static_camera_info::select_mode (declared in
camera.h, defined outside src) returns, for a fixed request array and a
subdevice index, the first catalog mode of that subdevice satisfying
every enabled request routed to it; no match for a subdevice with at
least one routed enabled request is a configuration error, and a
subdevice with no routed enabled request yields no mode without
error. -/
def static_camera_info.select_mode (info : static_camera_info)
    (reqs : rs_stream → stream_request) (i : Nat) :
    Except RsError (Option subdevice_mode) :=
  if routed_enabled info reqs i then
    match info.subdevice_modes.find? (mode_satisfies info reqs i) with
    | some m => .ok (some m)
    | none => .error (.configurationError "no mode found")
  else .ok none

/-- Publication of the stream buffers built for the stream modes of a
selected subdevice mode: one fresh buffer is built per stream mode and
set to that mode, and stored in the per-logical-stream slot exactly for
streams whose request is enabled.  In the source the raw buffer is
stored before subdevice_handle::set_mode runs over the shared pointers;
the observable final slot is the buffer with its mode set. -/
def publish_buffers (reqs : rs_stream → stream_request) :
    List stream_mode → (rs_stream → Option stream_buffer) → rs_stream → Option stream_buffer
  | [], st => st
  | sm :: rest, st =>
      publish_buffers reqs rest
        (if (reqs sm.stream).enabled then
          fun s => if s = sm.stream then some (stream_buffer.set_mode sm stream_buffer.empty)
                   else st s
        else st)

/-- Opening subdevice i on a selected mode: claim the handle, record the
first opened handle, build and publish the stream buffers, and program
the subdevice to the mode. -/
def open_subdevice (i : Nat) (m : subdevice_mode) (c : rs_camera) : rs_camera :=
  { c with
    subdevices := c.subdevices.set i (some { mode := m, streaming := false })
    first_handle := true
    streams := publish_buffers c.requests m.streams c.streams }

/-- The per-subdevice loop of configure_enabled_streams over the given
indices: ask select_mode for each index; an error aborts the loop at
the state reached so far, no mode skips the index, a mode opens the
subdevice. -/
def config_loop (info : static_camera_info) :
    List Nat → rs_camera → Except RsError Unit × rs_camera
  | [], c => (.ok (), c)
  | i :: rest, c =>
      match info.select_mode c.requests i with
      | .error e => (.error e, c)
      | .ok none => config_loop info rest c
      | .ok (some m) => config_loop info rest (open_subdevice i m c)

/-- The trailing calibration step of configure_enabled_streams: when the
intrinsics table is still empty and a first handle has been opened,
invoke the retrieval function once (ghost counter incremented). -/
def fetch_calibration (info : static_camera_info) (c : rs_camera) : rs_camera :=
  if c.calib.intrinsics = [] ∧ c.first_handle then
    { c with calib := info.calib_data, fetch_count := c.fetch_count + 1 }
  else c

/-- Resetting every subdevice slot, the first loop of
configure_enabled_streams. -/
def clear_subdevices (l : List (Option subdevice_state)) : List (Option subdevice_state) :=
  l.map (fun _ => none)

/-- rs_camera::configure_enabled_streams: reset every subdevice slot and
every stream slot; when no handle has been opened yet, run the
interstream constraint pass over the requests and then the
per-subdevice selection loop (an error escapes before the calibration
step); finally fetch calibration when needed. -/
def configure_enabled_streams (info : static_camera_info) (c : rs_camera) :
    Except RsError Unit × rs_camera :=
  let c0 := { c with subdevices := clear_subdevices c.subdevices
                     streams := fun _ => none }
  if c0.first_handle then (.ok (), fetch_calibration info c0)
  else
    let c1 := { c0 with requests := info.interstream_constraints c0.requests }
    match config_loop info (List.range c1.subdevices.length) c1 with
    | (.error e, c2) => (.error e, c2)
    | (.ok _, c2) => (.ok (), fetch_calibration info c2)

/-- Marking every open subdevice streaming and the session capturing,
the tail of start_capture after configuration.  The hardware stream
intent signal carries no modelled state. -/
def start_all (c : rs_camera) : rs_camera :=
  { c with
    subdevices := c.subdevices.map (Option.map (fun sd => { sd with streaming := true }))
    is_capturing := true }

/-- rs_camera::start_capture: configure first when no handle is open (a
configuration error escapes), then start streaming on every open
subdevice and mark the session capturing. -/
def start_capture (info : static_camera_info) (c : rs_camera) :
    Except RsError Unit × rs_camera :=
  if c.first_handle = false then
    match configure_enabled_streams info c with
    | (.error e, c1) => (.error e, c1)
    | (.ok _, c1) => (.ok (), start_all c1)
  else (.ok (), start_all c)

/-- rs_camera::stop_capture: stop streaming on every open subdevice and
mark the session not capturing. -/
def stop_capture (c : rs_camera) : rs_camera :=
  { c with
    subdevices := c.subdevices.map (Option.map (fun sd => { sd with streaming := false }))
    is_capturing := false }

/-- The maximum fps fold of wait_all_streams: over the stream slots in
enum order, a populated slot contributes the fps of its mode. -/
def max_fps (c : rs_camera) : Nat :=
  stream_list.foldl (fun m s =>
    match c.streams s with
    | some b => max m b.mode.fps
    | none => m) 0

/-- The busy-poll loop of wait_all_streams on one buffer, with explicit
fuel and a producer event schedule (true at k: the capture callback
delivers a frame before poll k).  The result carries the buffer after
the succeeding poll and the number of polls performed; exhausted fuel
models the loop still spinning. -/
def spin : Nat → (Nat → Bool) → stream_buffer → Option (stream_buffer × Nat)
  | 0, _, _ => none
  | fuel + 1, ev, b =>
      let b1 := if ev 0 then b.deliver none else b
      let r := b1.update_image
      if r.1 then some (r.2, 1)
      else
        match spin fuel (fun k => ev (k + 1)) r.2 with
        | some (b2, k) => some (b2, k + 1)
        | none => none

/-- The treatment of one stream slot by wait_all_streams: an empty slot
is passed over; a buffer at the maximum fps is spun on until new data
arrives; any other buffer receives a single non-blocking poll (preceded
by an optional producer delivery).  The poll count is returned alongside
the new slot. -/
def wait_one (fuel : Nat) (ev : Nat → Bool) (m : Nat) :
    Option stream_buffer → Option (Option stream_buffer × Nat)
  | none => some (none, 0)
  | some b =>
      if b.mode.fps = m then
        match spin fuel ev b with
        | some (b1, k) => some (some b1, k)
        | none => none
      else
        let b1 := if ev 0 then b.deliver none else b
        some (some (b1.update_image).2, 1)

/-- rs_camera::wait_all_streams: return at once when not capturing;
otherwise compute the maximum fps over the populated stream slots and
process every slot with wait_one.  The result is the new session state
together with the per-stream poll counts; an exhausted spin on a
maximum-fps stream yields no result (the source loop is still
spinning). -/
def wait_all_streams (fuel : Nat) (ev : rs_stream → Nat → Bool) (c : rs_camera) :
    Option (rs_camera × (rs_stream → Nat)) :=
  if c.is_capturing = false then some (c, fun _ => 0)
  else
    let m := max_fps c
    if stream_list.all (fun s => (wait_one fuel (ev s) m (c.streams s)).isSome) then
      some ({ c with streams := fun s => ((wait_one fuel (ev s) m (c.streams s)).getD (none, 0)).1 },
            fun s => ((wait_one fuel (ev s) m (c.streams s)).getD (none, 0)).2)
    else none

/-- rs_camera::get_stream_intrinsics: a stream with no populated buffer
slot is a state error; otherwise return the calibration intrinsics
entry at the intrinsics index of the mode of the buffer. -/
def get_stream_intrinsics (c : rs_camera) (s : rs_stream) :
    Except RsError rs_intrinsics :=
  match c.streams s with
  | none => .error (.stateError "stream not enabled")
  | some b => .ok (c.calib.intrinsics.getD b.mode.intrinsics_index default)

/-- rs_camera::get_stream_extrinsics: compose the inverse pose of the
source stream with the pose of the target stream and return its
rotation and translation. -/
def get_stream_extrinsics (c : rs_camera) (src dst : rs_stream) : rs_extrinsics :=
  let t := pose.mul (pose.inv (c.calib.stream_poses src)) (c.calib.stream_poses dst)
  { rotation := t.orientation, translation := t.position }

/-- The operation alphabet of a camera session, for statements about
every sequence of session operations. -/
inductive cam_op where
  | enable (s : rs_stream) (width height : Nat) (format : rs_format) (fps : Nat)
  | enablePreset (s : rs_stream) (p : rs_preset)
  | configure
  | start
  | stop
  | wait (fuel : Nat) (ev : rs_stream → Nat → Bool)

/-- The state reached by one session operation; a failing operation
leaves the state the operation holds at the throw point, and a wait
whose spin never returns keeps the session state. -/
def cam_step (info : static_camera_info) (op : cam_op) (c : rs_camera) : rs_camera :=
  match op with
  | .enable s w h f fps => (enable_stream info c s w h f fps).2
  | .enablePreset s p => (enable_stream_preset info c s p).2
  | .configure => (configure_enabled_streams info c).2
  | .start => (start_capture info c).2
  | .stop => stop_capture c
  | .wait fuel ev => ((wait_all_streams fuel ev c).map Prod.fst).getD c

/-- The session state after a sequence of operations from a fresh
session. -/
def run_ops (info : static_camera_info) (ops : List cam_op) : rs_camera :=
  ops.foldl (fun c op => cam_step info op c) (rs_camera.init info)

/-- All three slots of a buffer hold images of pixel size n. -/
def stream_buffer.slots_sized (b : stream_buffer) (n : Nat) : Prop :=
  b.front.size = n ∧ b.middle.size = n ∧ b.back.size = n

/-!  Concrete catalogs and sessions used as witnesses and
counterexamples. -/

/-- The identity pose. -/
def id_pose : pose := { orientation := 1, position := 0 }

/-- A depth-only catalog mode on subdevice 0: 640x480 z16 at 30 fps. -/
def mode1 : subdevice_mode :=
  { subdevice := 0, width := 640, height := 480, format := .z16, fps := 30
    streams := [{ stream := .depth, width := 640, height := 480, format := .z16,
                  fps := 30, intrinsics_index := 0 }] }

/-- A one-subdevice catalog serving depth only, with trivial interstream
constraints and a one-entry calibration. -/
def info1 : static_camera_info :=
  { subdevice_modes := [mode1]
    stream_subdevices := fun s => match s with | .depth => 0 | _ => -1
    presets := fun _ _ => stream_request.zero
    interstream_constraints := id
    calib_data := { intrinsics := [⟨7⟩], stream_poses := fun _ => id_pose } }

/-- A fresh info1 session with depth 640x480 z16 at 30 fps requested. -/
def cam1 : rs_camera :=
  (enable_stream info1 (rs_camera.init info1) .depth 640 480 .z16 30).2

/-- cam1 after one configure_enabled_streams call. -/
def cfg1 : rs_camera := (configure_enabled_streams info1 cam1).2

/-- cam1 after two configure_enabled_streams calls. -/
def cfg2 : rs_camera := (configure_enabled_streams info1 cfg1).2

/-- The color-only mode of subdevice 0 in the two-subdevice example
scenario: color 640x480 at 30 fps. -/
def mode_c : subdevice_mode :=
  { subdevice := 0, width := 640, height := 480, format := .yuyv, fps := 30
    streams := [{ stream := .color, width := 640, height := 480, format := .rgb8,
                  fps := 30, intrinsics_index := 0 }] }

/-- The depth-only mode of subdevice 1 in the two-subdevice example
scenario: depth 640x480 at 30 fps. -/
def mode_d : subdevice_mode :=
  { subdevice := 1, width := 640, height := 480, format := .z16, fps := 30
    streams := [{ stream := .depth, width := 640, height := 480, format := .z16,
                  fps := 30, intrinsics_index := 1 }] }

/-- The two-subdevice example catalog: subdevice 0 serves color only and
subdevice 1 serves depth only, both at 640x480 and 30 fps. -/
def info2 : static_camera_info :=
  { subdevice_modes := [mode_c, mode_d]
    stream_subdevices := fun s => match s with | .depth => 1 | .color => 0 | _ => -1
    presets := fun _ _ => stream_request.zero
    interstream_constraints := id
    calib_data := { intrinsics := [⟨1⟩, ⟨2⟩], stream_poses := fun _ => id_pose } }

/-- A fresh info2 session requesting depth at the unsupported resolution
320x240. -/
def cam2 : rs_camera :=
  (enable_stream info2 (rs_camera.init info2) .depth 320 240 .z16 30).2

/-- The producer event schedule delivering nothing. -/
def ev_none : rs_stream → Nat → Bool := fun _ _ => false

/-- A fresh info1 session started without any enabled stream request. -/
def camS : rs_camera := (start_capture info1 (rs_camera.init info1)).2

/-- A depth stream buffer at 30 fps whose updated flag is set. -/
def bufW : stream_buffer :=
  { stream_buffer.empty with
    mode := { stream := .depth, width := 1, height := 1, format := .z16,
              fps := 30, intrinsics_index := 0 }
    updated := true }

/-- A capturing session whose only populated slot is the depth buffer
bufW. -/
def camW : rs_camera :=
  { camS with streams := fun s => if s = .depth then some bufW else none }

/-- The result of one wait_all_streams call on camW with fuel 1 and no
producer events. -/
def wRes : rs_camera × (rs_stream → Nat) :=
  (wait_all_streams 1 ev_none camW).getD (camW, fun _ => 0)

/-- A session holding only identity calibration poses, for the
extrinsics round trip. -/
def camCal : rs_camera :=
  { rs_camera.init info1 with
    calib := { intrinsics := [⟨1⟩], stream_poses := fun _ => id_pose } }

/-- Enabling depth and configuring, as an operation sequence. -/
def opsW : List cam_op := [.enable .depth 640 480 .z16 30, .configure]

/-- The depth buffer published by configuring cam1. -/
def bufD : stream_buffer :=
  stream_buffer.set_mode
    { stream := .depth, width := 640, height := 480, format := .z16,
      fps := 30, intrinsics_index := 0 }
    stream_buffer.empty

/-!  Theorems. -/

/-- Every logical stream is listed in the traversal order. -/
theorem mem_stream_list (s : rs_stream) : s ∈ stream_list := by
  cases s <;> simp [stream_list]

/-- C4: for every StreamBuffer state, when the updated flag is false,
update_image returns false and leaves front, middle, back and the flag
unchanged; when the flag is true it exchanges front and middle, clears
the flag, returns true and leaves back unchanged. -/
theorem update_image_spec (b : stream_buffer) :
    (b.updated = false → b.update_image = (false, b)) ∧
    (b.updated = true →
      b.update_image = (true, { b with front := b.middle, middle := b.front, updated := false })) := by
  constructor <;> intro h <;> simp [stream_buffer.update_image, h]

/-- Witness for C4 at the concrete buffers bufW (flag set) and
stream_buffer.empty (flag clear). -/
theorem update_image_spec_witness :
    bufW.update_image = (true, { bufW with front := bufW.middle, middle := bufW.front, updated := false }) ∧
    stream_buffer.empty.update_image = (false, stream_buffer.empty) :=
  ⟨(update_image_spec bufW).2 rfl, (update_image_spec stream_buffer.empty).1 rfl⟩

/-- C7: set_mode makes all three slots hold images of the pixel size
implied by the mode, with frame number 0 and the updated flag clear
(middle and back are copies of front); and the equal-size property is
preserved by the producer delivery swap and by update_image. -/
theorem set_mode_slots_spec (m : stream_mode) (b0 : stream_buffer) :
    ((stream_buffer.set_mode m b0).slots_sized (get_image_size m.width m.height m.format) ∧
     (stream_buffer.set_mode m b0).front.number = 0 ∧
     (stream_buffer.set_mode m b0).middle = (stream_buffer.set_mode m b0).front ∧
     (stream_buffer.set_mode m b0).back = (stream_buffer.set_mode m b0).front ∧
     (stream_buffer.set_mode m b0).updated = false) ∧
    (∀ (b : stream_buffer) (n : Nat) (num : Option Nat), b.slots_sized n →
      (b.deliver num).slots_sized n ∧ (b.update_image).2.slots_sized n) := by
  refine ⟨⟨⟨rfl, rfl, rfl⟩, rfl, rfl, rfl, rfl⟩, ?_⟩
  rintro b n num ⟨h1, h2, h3⟩
  refine ⟨⟨h1, h3, h2⟩, ?_⟩
  by_cases hu : b.updated = false
  · simp [stream_buffer.update_image, hu]
    exact ⟨h1, h2, h3⟩
  · simp [stream_buffer.update_image, hu]
    exact ⟨h2, h1, h3⟩

/-- Witness for C7 at a concrete mode and at the concrete buffer bufW
whose slots all have size 0. -/
theorem set_mode_slots_spec_witness :
    (stream_buffer.set_mode bufD.mode stream_buffer.empty).slots_sized (get_image_size 640 480 .z16) ∧
    (bufW.deliver none).slots_sized 0 ∧ (bufW.update_image).2.slots_sized 0 := by
  refine ⟨(set_mode_slots_spec bufD.mode stream_buffer.empty).1.1, ?_⟩
  have h := (set_mode_slots_spec bufD.mode stream_buffer.empty).2 bufW 0 none ⟨rfl, rfl, rfl⟩
  exact h

/-- C3: any enable_stream or enable_stream_preset call made with the
first-handle-opened flag set fails with a ConfigurationError and leaves
every request entry unmodified, and so does a call for a stream or
preset the static catalog does not support. -/
theorem enable_stream_guards (info : static_camera_info) (c : rs_camera) (s : rs_stream)
    (w h : Nat) (f : rs_format) (fps : Nat) (p : rs_preset) :
    ((c.first_handle = true ∨ info.stream_subdevices s = -1) →
      (∃ msg, (enable_stream info c s w h f fps).1 = .error (.configurationError msg)) ∧
      (enable_stream info c s w h f fps).2.requests = c.requests) ∧
    ((c.first_handle = true ∨ (info.presets s p).enabled = false) →
      (∃ msg, (enable_stream_preset info c s p).1 = .error (.configurationError msg)) ∧
      (enable_stream_preset info c s p).2.requests = c.requests) := by
  constructor
  · rintro (hfh | hun)
    · simp [enable_stream, hfh]
    · cases hf : c.first_handle
      · simp [enable_stream, hf, hun]
      · simp [enable_stream, hf]
  · rintro (hfh | hun)
    · simp [enable_stream_preset, hfh]
    · cases hf : c.first_handle
      · simp [enable_stream_preset, hf, hun]
      · simp [enable_stream_preset, hf]

/-- Witness for C3: reconfiguring after cfg1 opened a subdevice fails,
and requesting the unrouted color stream of catalog info1 fails, both
leaving the requests unchanged. -/
theorem enable_stream_guards_witness :
    ((∃ msg, (enable_stream info1 cfg1 .depth 640 480 .z16 30).1 = .error (.configurationError msg)) ∧
     (enable_stream info1 cfg1 .depth 640 480 .z16 30).2.requests = cfg1.requests) ∧
    ((∃ msg, (enable_stream info1 (rs_camera.init info1) .color 640 480 .rgb8 30).1 = .error (.configurationError msg)) ∧
     (enable_stream info1 (rs_camera.init info1) .color 640 480 .rgb8 30).2.requests = (rs_camera.init info1).requests) ∧
    ((∃ msg, (enable_stream_preset info1 (rs_camera.init info1) .depth .best_quality).1 = .error (.configurationError msg)) ∧
     (enable_stream_preset info1 (rs_camera.init info1) .depth .best_quality).2.requests = (rs_camera.init info1).requests) :=
  ⟨(enable_stream_guards info1 cfg1 .depth 640 480 .z16 30 .best_quality).1 (.inl (by decide)),
   (enable_stream_guards info1 (rs_camera.init info1) .color 640 480 .rgb8 30 .best_quality).1 (.inr rfl),
   (enable_stream_guards info1 (rs_camera.init info1) .depth 640 480 .z16 30 .best_quality).2 (.inr rfl)⟩

/-- C8: get_stream_intrinsics on a stream with no populated buffer slot
fails with a StateError, and on a populated stream it returns the
calibration intrinsics entry at the intrinsics index of the negotiated
mode of that buffer. -/
theorem get_stream_intrinsics_spec (c : rs_camera) (s : rs_stream) :
    (c.streams s = none → get_stream_intrinsics c s = .error (.stateError "stream not enabled")) ∧
    (∀ (b : stream_buffer) (hb : c.streams s = some b)
       (hlt : b.mode.intrinsics_index < c.calib.intrinsics.length),
       get_stream_intrinsics c s = .ok (c.calib.intrinsics.get ⟨b.mode.intrinsics_index, hlt⟩)) := by
  constructor
  · intro h
    simp [get_stream_intrinsics, h]
  · intro b hb hlt
    simp only [get_stream_intrinsics, hb]
    congr 1
    rw [List.getD_eq_getElem?_getD, List.getElem?_eq_getElem hlt]
    simp [List.get_eq_getElem]

/-- Witness for C8 at cfg1: the never-enabled color stream fails with a
StateError and the configured depth stream returns the intrinsics entry
of its mode. -/
theorem get_stream_intrinsics_spec_witness :
    get_stream_intrinsics cfg1 .color = .error (.stateError "stream not enabled") ∧
    get_stream_intrinsics cfg1 .depth = .ok ⟨7⟩ := by
  constructor
  · exact (get_stream_intrinsics_spec cfg1 .color).1 (by decide)
  · have h := (get_stream_intrinsics_spec cfg1 .depth).2 bufD (by decide) (by decide)
    exact h.trans rfl

/-- Erasing every subdevice slot leaves no open handle to filter. -/
theorem clear_subdevices_filter (l : List (Option subdevice_state)) :
    List.filter Option.isSome (clear_subdevices l) = [] := by
  induction l with
  | nil => rfl
  | cons a t ih => simpa [clear_subdevices] using ih

/-- Erasing the subdevice slots keeps their number. -/
theorem clear_subdevices_length (l : List (Option subdevice_state)) :
    (clear_subdevices l).length = l.length := by
  simp [clear_subdevices]

/-- The shape of configure_enabled_streams when a handle is already
open: only the reset and the calibration check run. -/
theorem configure_eq_open (info : static_camera_info) (c : rs_camera)
    (hfh : c.first_handle = true) :
    configure_enabled_streams info c = (.ok (), fetch_calibration info
      { c with subdevices := clear_subdevices c.subdevices, streams := fun _ => none }) := by
  unfold configure_enabled_streams
  rw [if_pos]
  exact hfh

/-- The shape of configure_enabled_streams when no handle is open yet:
the reset, the constraint pass, the selection loop and the calibration
check. -/
theorem configure_eq_loop (info : static_camera_info) (c : rs_camera)
    (hfh : c.first_handle = false) :
    configure_enabled_streams info c =
      (match config_loop info (List.range (clear_subdevices c.subdevices).length)
        { c with subdevices := clear_subdevices c.subdevices, streams := fun _ => none,
                 requests := info.interstream_constraints c.requests } with
       | (.error e, c2) => (.error e, c2)
       | (.ok _, c2) => (.ok (), fetch_calibration info c2)) := by
  unfold configure_enabled_streams
  rw [if_neg]
  simp [hfh]

/-- fetch_calibration changes only the calibration and the ghost
counter. -/
theorem fetch_calibration_preserves (info : static_camera_info) (c : rs_camera) :
    (fetch_calibration info c).subdevices = c.subdevices ∧
    (fetch_calibration info c).streams = c.streams ∧
    (fetch_calibration info c).requests = c.requests ∧
    (fetch_calibration info c).first_handle = c.first_handle ∧
    (fetch_calibration info c).is_capturing = c.is_capturing := by
  unfold fetch_calibration
  split <;> simp

/-- Amended C1: once the first-handle-opened flag is set, a further
configure_enabled_streams call succeeds but leaves zero open subdevice
handles and clears every per-logical-stream buffer slot, with the
requests unchanged. -/
theorem configure_after_open (info : static_camera_info) (c : rs_camera)
    (hfh : c.first_handle = true) :
    (configure_enabled_streams info c).1 = .ok () ∧
    (configure_enabled_streams info c).2.open_count = 0 ∧
    (∀ s, (configure_enabled_streams info c).2.streams s = none) ∧
    (configure_enabled_streams info c).2.requests = c.requests := by
  have hres := configure_eq_open info c hfh
  obtain ⟨hsub, hstr, hreq, -, -⟩ := fetch_calibration_preserves info
    { c with subdevices := clear_subdevices c.subdevices, streams := fun _ => none }
  rw [hres]
  refine ⟨rfl, ?_, ?_, hreq⟩
  · show (fetch_calibration info _).open_count = 0
    unfold rs_camera.open_count
    rw [hsub]
    show (List.filter Option.isSome (clear_subdevices c.subdevices)).length = 0
    rw [clear_subdevices_filter]
    rfl
  · intro s
    show (fetch_calibration info _).streams s = none
    rw [hstr]

/-- Witness for the amended C1 at the concrete configured session
cfg1. -/
theorem configure_after_open_witness :
    (configure_enabled_streams info1 cfg1).1 = .ok () ∧
    (configure_enabled_streams info1 cfg1).2.open_count = 0 ∧
    (configure_enabled_streams info1 cfg1).2.streams .depth = none ∧
    (configure_enabled_streams info1 cfg1).2.requests = cfg1.requests := by
  have h := configure_after_open info1 cfg1 (by decide)
  exact ⟨h.1, h.2.1, h.2.2.1 .depth, h.2.2.2⟩

/-- Counterexample to C1 as stated: on catalog info1 with depth enabled,
one configure_enabled_streams call opens one subdevice and populates the
depth slot, while a second call leaves zero open subdevices and an empty
depth slot. -/
theorem configure_twice_counterexample :
    cfg1.open_count = 1 ∧ (cfg1.streams .depth).isSome = true ∧
    cfg2.open_count = 0 ∧ cfg2.streams .depth = none := by
  exact ⟨by decide, by decide, by decide, by decide⟩

/-- Every error select_mode reports is the no-mode configuration
error. -/
theorem select_mode_error_shape (info : static_camera_info)
    (reqs : rs_stream → stream_request) (i : Nat) (e : RsError)
    (h : info.select_mode reqs i = .error e) :
    e = .configurationError "no mode found" := by
  unfold static_camera_info.select_mode at h
  split at h
  · rcases hf : info.subdevice_modes.find? (mode_satisfies info reqs i) with _ | m
    · rw [hf] at h
      simpa using h.symm
    · rw [hf] at h
      simp at h
  · simp at h

/-- A subdevice with at least one routed enabled request and no
satisfying catalog mode makes select_mode fail. -/
theorem select_mode_no_match (info : static_camera_info)
    (reqs : rs_stream → stream_request) (i : Nat)
    (hrouted : routed_enabled info reqs i = true)
    (hnone : ∀ m ∈ info.subdevice_modes, mode_satisfies info reqs i m = false) :
    info.select_mode reqs i = .error (.configurationError "no mode found") := by
  unfold static_camera_info.select_mode
  rw [if_pos hrouted]
  have hfind : info.subdevice_modes.find? (mode_satisfies info reqs i) = none := by
    rw [List.find?_eq_none]
    intro m hm
    simp [hnone m hm]
  rw [hfind]

/-- The configuration loop never changes the request array. -/
theorem config_loop_requests (info : static_camera_info) :
    ∀ (idxs : List Nat) (c : rs_camera),
    (config_loop info idxs c).2.requests = c.requests := by
  intro idxs
  induction idxs with
  | nil => intro c; rfl
  | cons i rest ih =>
    intro c
    unfold config_loop
    rcases hsel : info.select_mode c.requests i with e | o
    · simp
    · rcases o with _ | m
      · exact ih c
      · exact ih (open_subdevice i m c)

/-- A select_mode failure at any listed index aborts the configuration
loop with a configuration error. -/
theorem config_loop_error_of_mem (info : static_camera_info) :
    ∀ (idxs : List Nat) (c : rs_camera) (i : Nat), i ∈ idxs →
    info.select_mode c.requests i = .error (.configurationError "no mode found") →
    ∃ msg, (config_loop info idxs c).1 = .error (.configurationError msg) := by
  intro idxs
  induction idxs with
  | nil => intro c i hi; exact absurd hi (List.not_mem_nil i)
  | cons j rest ih =>
    intro c i hi hsel
    unfold config_loop
    rcases hj : info.select_mode c.requests j with e | o
    · exact ⟨"no mode found", by simp [select_mode_error_shape info c.requests j e hj]⟩
    · rcases List.mem_cons.mp hi with rfl | hrest
      · rw [hj] at hsel; cases hsel
      · rcases o with _ | m
        · exact ih c i hrest hsel
        · exact ih (open_subdevice j m c) i hrest hsel

/-- C2: a subdevice with at least one routed enabled request (after the
constraint pass) but no satisfying catalog mode makes
configure_enabled_streams fail with a configuration error; in the
two-subdevice example scenario, requesting the unsupported depth
resolution 320x240 yields the configuration error and zero open
subdevices, the request-free subdevice 0 being skipped without
error. -/
theorem configure_no_mode_error :
    (∀ (info : static_camera_info) (c : rs_camera) (i : Nat),
      c.first_handle = false →
      i < c.subdevices.length →
      routed_enabled info (info.interstream_constraints c.requests) i = true →
      (∀ m ∈ info.subdevice_modes,
        mode_satisfies info (info.interstream_constraints c.requests) i m = false) →
      ∃ msg, (configure_enabled_streams info c).1 = .error (.configurationError msg)) ∧
    ((configure_enabled_streams info2 cam2).1 = .error (.configurationError "no mode found") ∧
     (configure_enabled_streams info2 cam2).2.open_count = 0) := by
  constructor
  · intro info c i hfh hlt hrouted hnone
    have hsel : info.select_mode (info.interstream_constraints c.requests) i =
        .error (.configurationError "no mode found") :=
      select_mode_no_match info _ i hrouted hnone
    have hmem : i ∈ List.range (clear_subdevices c.subdevices).length := by
      rw [clear_subdevices_length]
      exact List.mem_range.mpr hlt
    obtain ⟨msg, hloop⟩ := config_loop_error_of_mem info
      (List.range (clear_subdevices c.subdevices).length)
      { c with subdevices := clear_subdevices c.subdevices
               streams := fun _ => none
               requests := info.interstream_constraints c.requests }
      i hmem hsel
    refine ⟨msg, ?_⟩
    rw [configure_eq_loop info c hfh]
    rcases hl : config_loop info
      (List.range (clear_subdevices c.subdevices).length)
      { c with subdevices := clear_subdevices c.subdevices
               streams := fun _ => none
               requests := info.interstream_constraints c.requests } with ⟨r, c2⟩
    rw [hl] at hloop
    simp only at hloop
    subst hloop
    rfl
  · exact ⟨rfl, by decide⟩

/-- Witness for C2 at the two-subdevice scenario: subdevice 1 has the
routed depth request at 320x240 and no satisfying mode. -/
theorem configure_no_mode_error_witness :
    ∃ msg, (configure_enabled_streams info2 cam2).1 = .error (.configurationError msg) :=
  configure_no_mode_error.1 info2 cam2 1 (by decide) (by decide) (by decide) (by decide)

/-- C9: get_stream_extrinsics composes the inverse pose of the source
stream with the pose of the target stream, and for rigid (orthonormal)
poses the two opposite extrinsic transforms compose to the identity. -/
theorem extrinsics_round_trip (c : rs_camera) (A B : rs_stream)
    (hA1 : (c.calib.stream_poses A).orientation * (c.calib.stream_poses A).orientation.transpose = 1)
    (hA2 : (c.calib.stream_poses A).orientation.transpose * (c.calib.stream_poses A).orientation = 1)
    (hB1 : (c.calib.stream_poses B).orientation * (c.calib.stream_poses B).orientation.transpose = 1)
    (hB2 : (c.calib.stream_poses B).orientation.transpose * (c.calib.stream_poses B).orientation = 1) :
    (get_stream_extrinsics c A B).rotation =
      (pose.mul (pose.inv (c.calib.stream_poses A)) (c.calib.stream_poses B)).orientation ∧
    (get_stream_extrinsics c A B).translation =
      (pose.mul (pose.inv (c.calib.stream_poses A)) (c.calib.stream_poses B)).position ∧
    rs_extrinsics.comp (get_stream_extrinsics c A B) (get_stream_extrinsics c B A) =
      rs_extrinsics.id := by
  refine ⟨rfl, rfl, ?_⟩
  unfold get_stream_extrinsics rs_extrinsics.comp rs_extrinsics.id pose.mul pose.inv
  congr 1
  · rw [mul_assoc, ← mul_assoc (c.calib.stream_poses B).orientation, hB1, one_mul, hA2]
  · rw [Matrix.mulVec_add, Matrix.mulVec_neg, Matrix.mulVec_mulVec, Matrix.mulVec_mulVec,
      mul_assoc, hB1, mul_one]
    abel

/-- Witness for C9 at the identity-pose calibration of camCal. -/
theorem extrinsics_round_trip_witness :
    rs_extrinsics.comp (get_stream_extrinsics camCal .depth .color)
      (get_stream_extrinsics camCal .color .depth) = rs_extrinsics.id := by
  have h := extrinsics_round_trip camCal .depth .color
    (by simp [camCal, id_pose]) (by simp [camCal, id_pose])
    (by simp [camCal, id_pose]) (by simp [camCal, id_pose])
  exact h.2.2

/-- The configuration loop is the identity when select_mode finds no
routed request at any listed index. -/
theorem config_loop_all_none (info : static_camera_info) :
    ∀ (idxs : List Nat) (c : rs_camera),
    (∀ i ∈ idxs, info.select_mode c.requests i = .ok none) →
    config_loop info idxs c = (.ok (), c) := by
  intro idxs
  induction idxs with
  | nil => intro c _; rfl
  | cons i rest ih =>
    intro c h
    unfold config_loop
    rw [h i (List.mem_cons_self i rest)]
    exact ih c (fun j hj => h j (List.mem_cons_of_mem i hj))

/-- The calibration fetch does not fire while no handle is open. -/
theorem fetch_calibration_not_open (info : static_camera_info) (c : rs_camera)
    (h : c.first_handle = false) : fetch_calibration info c = c := by
  simp [fetch_calibration, h]

/-- Starting the open subdevices does not change how many are open. -/
theorem open_count_start_all (c : rs_camera) : (start_all c).open_count = c.open_count := by
  unfold start_all rs_camera.open_count
  simp only [List.filter_map, List.length_map]
  congr 1
  congr 1
  funext x
  cases x <;> rfl

/-- C10: start_capture on a session whose constraint-passed fresh
requests are all disabled opens nothing, still marks the session
capturing, and a following wait_all_streams call returns at once with a
zero maximum fps and zero polls on every stream. -/
theorem start_capture_no_requests (info : static_camera_info) (fuel : Nat)
    (ev : rs_stream → Nat → Bool)
    (hconstr : ∀ s, (info.interstream_constraints (fun _ => stream_request.zero) s).enabled = false) :
    (start_capture info (rs_camera.init info)).1 = .ok () ∧
    (start_capture info (rs_camera.init info)).2.is_capturing = true ∧
    (start_capture info (rs_camera.init info)).2.open_count = 0 ∧
    (∀ s, (start_capture info (rs_camera.init info)).2.streams s = none) ∧
    max_fps (start_capture info (rs_camera.init info)).2 = 0 ∧
    wait_all_streams fuel ev (start_capture info (rs_camera.init info)).2 =
      some ((start_capture info (rs_camera.init info)).2, fun _ => 0) := by
  have hrouted : ∀ i, routed_enabled info
      (info.interstream_constraints (fun _ => stream_request.zero)) i = false := by
    intro i
    simp [routed_enabled, stream_list, hconstr]
  have hsel : ∀ i, info.select_mode
      (info.interstream_constraints (fun _ => stream_request.zero)) i = .ok none := by
    intro i
    unfold static_camera_info.select_mode
    rw [if_neg]
    simp [hrouted i]
  set cR : rs_camera := { rs_camera.init info with
      subdevices := clear_subdevices (rs_camera.init info).subdevices
      streams := fun _ => none
      requests := info.interstream_constraints (rs_camera.init info).requests } with hcR
  have hcfg : configure_enabled_streams info (rs_camera.init info) = (.ok (), cR) := by
    rw [configure_eq_loop info (rs_camera.init info) rfl,
      config_loop_all_none info _ _ (fun i _ => hsel i)]
    exact congrArg _ (fetch_calibration_not_open info _ rfl)
  have hstart : start_capture info (rs_camera.init info) = (.ok (), start_all cR) := by
    unfold start_capture
    have hc : (rs_camera.init info).first_handle = false := rfl
    rw [if_pos hc, hcfg]
  rw [hstart]
  refine ⟨rfl, rfl, ?_, fun s => rfl, rfl, rfl⟩
  show (start_all cR).open_count = 0
  rw [open_count_start_all]
  show (List.filter Option.isSome (clear_subdevices (rs_camera.init info).subdevices)).length = 0
  rw [clear_subdevices_filter]
  rfl

/-- Witness for C10 at the concrete catalog info1. -/
theorem start_capture_no_requests_witness :
    camS.is_capturing = true ∧ camS.open_count = 0 ∧
    wait_all_streams 0 ev_none camS = some (camS, fun _ => 0) := by
  have h := start_capture_no_requests info1 0 ev_none (by intro s; cases s <;> rfl)
  exact ⟨h.2.1, h.2.2.1, h.2.2.2.2.2⟩

/-- A successful update_image call found the flag set and swapped front
and middle while clearing it. -/
theorem update_image_true (b : stream_buffer) (h : (b.update_image).1 = true) :
    b.updated = true ∧
    (b.update_image).2 = { b with front := b.middle, middle := b.front, updated := false } := by
  by_cases hu : b.updated = false
  · rw [stream_buffer.update_image, if_pos hu] at h
    cases h
  · refine ⟨by simpa using hu, ?_⟩
    rw [stream_buffer.update_image, if_neg hu]

/-- What a terminating spin did: at least one and at most fuel polls,
and the final buffer is the image of a successful update_image call on a
buffer whose flag was set. -/
theorem spin_props : ∀ (fuel : Nat) (ev : Nat → Bool) (b b1 : stream_buffer) (k : Nat),
    spin fuel ev b = some (b1, k) →
    1 ≤ k ∧ k ≤ fuel ∧
    ∃ bp : stream_buffer, bp.updated = true ∧
      b1 = { bp with front := bp.middle, middle := bp.front, updated := false } := by
  intro fuel
  induction fuel with
  | zero => intro ev b b1 k h; cases h
  | succ n ih =>
    intro ev b b1 k h
    rw [spin] at h
    rcases hr : ((if ev 0 then b.deliver none else b).update_image).1 with _ | _
    · rw [hr] at h
      simp only [Bool.false_eq_true, if_false] at h
      rcases hs : spin n (fun k => ev (k + 1)) ((if ev 0 then b.deliver none else b).update_image).2
        with _ | ⟨b2, k0⟩
      · rw [hs] at h; cases h
      · rw [hs] at h
        obtain ⟨rfl, rfl⟩ : b2 = b1 ∧ k0 + 1 = k := by
          injection h with h1; injection h1 with h2 h3; exact ⟨h2, h3⟩
        obtain ⟨hk1, hk2, hshape⟩ := ih _ _ _ _ hs
        exact ⟨Nat.le_succ_of_le hk1, Nat.succ_le_succ hk2, hshape⟩
    · rw [hr] at h
      simp only [if_true] at h
      obtain ⟨rfl, rfl⟩ : ((if ev 0 then b.deliver none else b).update_image).2 = b1 ∧ 1 = k := by
        injection h with h1; injection h1 with h2 h3; exact ⟨h2, h3⟩
      obtain ⟨hupd, hshape⟩ := update_image_true _ hr
      exact ⟨Nat.le_refl 1, Nat.succ_le_succ (Nat.zero_le n),
        ⟨if ev 0 then b.deliver none else b, hupd, hshape⟩⟩

/-- An empty stream slot is passed over without polling. -/
theorem wait_one_none (fuel : Nat) (ev : Nat → Bool) (m : Nat) :
    wait_one fuel ev m none = some (none, 0) := rfl

/-- A slot below the maximum fps gets exactly one non-blocking poll. -/
theorem wait_one_other (fuel : Nat) (ev : Nat → Bool) (m : Nat) (b : stream_buffer)
    (hfps : b.mode.fps ≠ m) :
    wait_one fuel ev m (some b) =
      some (some (((if ev 0 then b.deliver none else b : stream_buffer)).update_image).2, 1) := by
  rw [wait_one, if_neg hfps]

/-- The initial accumulator bounds the fps fold from below. -/
theorem foldl_max_fps_init_le (st : rs_stream → Option stream_buffer) :
    ∀ (l : List rs_stream) (a : Nat),
    a ≤ l.foldl (fun m s => match st s with | some b => max m b.mode.fps | none => m) a := by
  intro l
  induction l with
  | nil => intro a; exact Nat.le_refl a
  | cons t rest ih =>
    intro a
    refine Nat.le_trans ?_ (ih _)
    show a ≤ match st t with | some b => max a b.mode.fps | none => a
    rcases st t with _ | b
    · exact Nat.le_refl a
    · exact Nat.le_max_left a b.mode.fps

/-- Every populated slot in the fold list bounds the fps fold. -/
theorem foldl_max_fps_mem (st : rs_stream → Option stream_buffer) :
    ∀ (l : List rs_stream) (a : Nat) (s : rs_stream) (b : stream_buffer),
    s ∈ l → st s = some b →
    b.mode.fps ≤ l.foldl (fun m s => match st s with | some b => max m b.mode.fps | none => m) a := by
  intro l
  induction l with
  | nil => intro a s b hs; exact absurd hs (List.not_mem_nil s)
  | cons t rest ih =>
    intro a s b hs hb
    rcases List.mem_cons.mp hs with rfl | hrest
    · refine Nat.le_trans ?_ (foldl_max_fps_init_le st rest _)
      show b.mode.fps ≤ match st s with | some b => max a b.mode.fps | none => a
      rw [hb]
      exact Nat.le_max_right a b.mode.fps
    · exact ih _ s b hrest hb

/-- C5: wait_all_streams returns at once when the session is not
capturing; the computed maximum fps dominates the fps of every populated
stream; and when a capturing call returns, an empty slot got zero polls,
every maximum-fps stream got between one and fuel polls ending in a
successful front-middle exchange on a set flag, and every slower stream
got exactly one poll that leaves it untouched when no data had
arrived. -/
theorem wait_all_streams_spec (c : rs_camera) (fuel : Nat) (ev : rs_stream → Nat → Bool) :
    (c.is_capturing = false → wait_all_streams fuel ev c = some (c, fun _ => 0)) ∧
    (∀ s b, c.streams s = some b → b.mode.fps ≤ max_fps c) ∧
    (∀ c' log, c.is_capturing = true → wait_all_streams fuel ev c = some (c', log) →
      (∀ s, c.streams s = none → c'.streams s = none ∧ log s = 0) ∧
      (∀ s b, c.streams s = some b → b.mode.fps = max_fps c →
        1 ≤ log s ∧ log s ≤ fuel ∧
        ∃ bp : stream_buffer, bp.updated = true ∧
          c'.streams s = some { bp with front := bp.middle, middle := bp.front, updated := false }) ∧
      (∀ s b, c.streams s = some b → b.mode.fps ≠ max_fps c →
        log s = 1 ∧ (ev s 0 = false → b.updated = false → c'.streams s = some b))) := by
  refine ⟨?_, ?_, ?_⟩
  · intro hcap
    rw [wait_all_streams, if_pos hcap]
  · intro s b hb
    exact foldl_max_fps_mem c.streams stream_list 0 s b (mem_stream_list s) hb
  · intro c' log hcap h
    rw [wait_all_streams, if_neg (by simp [hcap])] at h
    rcases hall : stream_list.all
        (fun s => (wait_one fuel (ev s) (max_fps c) (c.streams s)).isSome) with _ | _
    · rw [if_neg (by simp [hall])] at h
      cases h
    · rw [if_pos (by simp [hall])] at h
      have h1 := Option.some.inj h
      rw [Prod.mk.injEq] at h1
      obtain ⟨hc', hlog⟩ := h1
      have hstr : ∀ t, c'.streams t =
          ((wait_one fuel (ev t) (max_fps c) (c.streams t)).getD (none, 0)).1 := by
        intro t
        rw [← hc']
      have hlg : ∀ t, log t =
          ((wait_one fuel (ev t) (max_fps c) (c.streams t)).getD (none, 0)).2 := by
        intro t
        rw [← hlog]
      have hsome : ∀ s, (wait_one fuel (ev s) (max_fps c) (c.streams s)).isSome = true := by
        intro s
        exact List.all_eq_true.mp hall s (mem_stream_list s)
      refine ⟨?_, ?_, ?_⟩
      · intro s hs
        rw [hstr s, hlg s, hs, wait_one_none]
        exact ⟨rfl, rfl⟩
      · intro s b hb hfps
        have hw := hsome s
        rw [hb] at hw
        rw [wait_one, if_pos hfps] at hw
        rw [hstr s, hlg s, hb, wait_one, if_pos hfps]
        rcases hspin : spin fuel (ev s) b with _ | ⟨b1, k⟩
        · rw [hspin] at hw; cases hw
        · obtain ⟨hk1, hk2, bp, hupd, hshape⟩ := spin_props fuel (ev s) b b1 k hspin
          exact ⟨hk1, hk2, bp, hupd, by subst hshape; rfl⟩
      · intro s b hb hfps
        rw [hstr s, hlg s, hb, wait_one_other fuel (ev s) (max_fps c) b hfps]
        refine ⟨rfl, fun hev hupd => ?_⟩
        show some ((if ev s 0 then b.deliver none else b : stream_buffer).update_image).2 = some b
        rw [hev]
        simp only [Bool.false_eq_true, if_false]
        rw [stream_buffer.update_image, if_pos hupd]

/-- Witness for C5 on the capturing session camW: the maximum-fps depth
stream is polled until its pending frame is consumed and the empty color
slot gets zero polls. -/
theorem wait_all_streams_spec_witness :
    1 ≤ wRes.2 rs_stream.depth ∧ wRes.2 rs_stream.color = 0 ∧ camW.is_capturing = true := by
  have h := (wait_all_streams_spec camW 1 ev_none).2.2 wRes.1 wRes.2 rfl rfl
  have hd := h.2.1 rs_stream.depth bufW rfl rfl
  exact ⟨hd.1, (h.1 rs_stream.color rfl).2, rfl⟩

/-- The configuration loop changes neither the calibration nor the
ghost fetch counter. -/
theorem config_loop_ghost (info : static_camera_info) :
    ∀ (idxs : List Nat) (c : rs_camera),
    (config_loop info idxs c).2.calib = c.calib ∧
    (config_loop info idxs c).2.fetch_count = c.fetch_count := by
  intro idxs
  induction idxs with
  | nil => intro c; exact ⟨rfl, rfl⟩
  | cons i rest ih =>
    intro c
    unfold config_loop
    rcases hsel : info.select_mode c.requests i with e | o
    · exact ⟨rfl, rfl⟩
    · rcases o with _ | m
      · exact ih c
      · exact ih (open_subdevice i m c)

/-- Either the calibration fetch does not fire, or it fires on an empty
intrinsics table with the first handle open, storing the retrieved
calibration and bumping the ghost counter. -/
theorem fetch_calibration_cases (info : static_camera_info) (c : rs_camera) :
    fetch_calibration info c = c ∨
    ((fetch_calibration info c).calib = info.calib_data ∧
     (fetch_calibration info c).fetch_count = c.fetch_count + 1 ∧
     c.calib.intrinsics = [] ∧ (fetch_calibration info c).first_handle = true) := by
  unfold fetch_calibration
  split
  · rename_i hcond
    right
    exact ⟨rfl, rfl, hcond.1, hcond.2⟩
  · left
    rfl

/-- Either configure_enabled_streams leaves calibration and the fetch
counter alone, or it fetches exactly once, from an empty table, ending
with the first handle open. -/
theorem configure_fetch (info : static_camera_info) (c : rs_camera) :
    ((configure_enabled_streams info c).2.fetch_count = c.fetch_count ∧
     (configure_enabled_streams info c).2.calib = c.calib) ∨
    ((configure_enabled_streams info c).2.fetch_count = c.fetch_count + 1 ∧
     (configure_enabled_streams info c).2.calib = info.calib_data ∧
     c.calib.intrinsics = [] ∧ (configure_enabled_streams info c).2.first_handle = true) := by
  rcases hfh : c.first_handle with _ | _
  · rw [configure_eq_loop info c hfh]
    have hg := config_loop_ghost info (List.range (clear_subdevices c.subdevices).length)
        { c with subdevices := clear_subdevices c.subdevices, streams := fun _ => none,
                 requests := info.interstream_constraints c.requests }
    rcases hl : config_loop info (List.range (clear_subdevices c.subdevices).length)
        { c with subdevices := clear_subdevices c.subdevices, streams := fun _ => none,
                 requests := info.interstream_constraints c.requests } with ⟨r, c2⟩
    rw [hl] at hg
    simp only at hg
    rcases r with e | u
    · left
      exact ⟨hg.2, hg.1⟩
    · rcases fetch_calibration_cases info c2 with hid | ⟨hc1, hc2, hc3, hc4⟩
      · left
        refine ⟨?_, ?_⟩
        · show (fetch_calibration info c2).fetch_count = c.fetch_count
          rw [hid]
          exact hg.2
        · show (fetch_calibration info c2).calib = c.calib
          rw [hid]
          exact hg.1
      · right
        refine ⟨?_, hc1, ?_, hc4⟩
        · show (fetch_calibration info c2).fetch_count = c.fetch_count + 1
          rw [hc2, hg.2]
        · rw [← hg.1]
          exact hc3
  · rw [configure_eq_open info c hfh]
    rcases fetch_calibration_cases info
        { c with subdevices := clear_subdevices c.subdevices, streams := fun _ => none }
      with hid | ⟨hc1, hc2, hc3, hc4⟩
    · left
      refine ⟨?_, ?_⟩
      · show (fetch_calibration info _).fetch_count = c.fetch_count
        rw [hid]
      · show (fetch_calibration info _).calib = c.calib
        rw [hid]
    · right
      exact ⟨hc2, hc1, hc3, hc4⟩

/-- A returned wait_all_streams call changes neither calibration nor the
fetch counter. -/
theorem wait_ghost (fuel : Nat) (ev : rs_stream → Nat → Bool) (c c1 : rs_camera)
    (log : rs_stream → Nat) (h : wait_all_streams fuel ev c = some (c1, log)) :
    c1.fetch_count = c.fetch_count ∧ c1.calib = c.calib := by
  rw [wait_all_streams] at h
  split at h
  · have h1 := Option.some.inj h
    rw [Prod.mk.injEq] at h1
    rw [← h1.1]
    exact ⟨rfl, rfl⟩
  · dsimp only at h
    split at h
    · have h1 := Option.some.inj h
      rw [Prod.mk.injEq] at h1
      rw [← h1.1]
      exact ⟨rfl, rfl⟩
    · cases h

/-- enable_stream changes neither calibration nor the fetch counter. -/
theorem enable_ghost (info : static_camera_info) (c : rs_camera) (s : rs_stream)
    (w h : Nat) (f : rs_format) (fps : Nat) :
    (enable_stream info c s w h f fps).2.fetch_count = c.fetch_count ∧
    (enable_stream info c s w h f fps).2.calib = c.calib := by
  unfold enable_stream
  split
  · exact ⟨rfl, rfl⟩
  · split
    · exact ⟨rfl, rfl⟩
    · exact ⟨rfl, rfl⟩

/-- enable_stream_preset changes neither calibration nor the fetch
counter. -/
theorem enable_preset_ghost (info : static_camera_info) (c : rs_camera) (s : rs_stream)
    (p : rs_preset) :
    (enable_stream_preset info c s p).2.fetch_count = c.fetch_count ∧
    (enable_stream_preset info c s p).2.calib = c.calib := by
  unfold enable_stream_preset
  split
  · exact ⟨rfl, rfl⟩
  · split
    · exact ⟨rfl, rfl⟩
    · exact ⟨rfl, rfl⟩

/-- Any single session operation either keeps calibration and the fetch
counter, or performs exactly one fetch from an empty table and ends with
the first handle open. -/
theorem cam_step_fetch (info : static_camera_info) (op : cam_op) (c : rs_camera) :
    ((cam_step info op c).fetch_count = c.fetch_count ∧
     (cam_step info op c).calib = c.calib) ∨
    ((cam_step info op c).fetch_count = c.fetch_count + 1 ∧
     (cam_step info op c).calib = info.calib_data ∧
     c.calib.intrinsics = [] ∧ (cam_step info op c).first_handle = true) := by
  cases op with
  | enable s w h f fps =>
    left
    exact enable_ghost info c s w h f fps
  | enablePreset s p =>
    left
    exact enable_preset_ghost info c s p
  | configure =>
    exact configure_fetch info c
  | start =>
    simp only [cam_step]
    rcases hf : c.first_handle with _ | _
    · unfold start_capture
      rw [if_pos hf]
      have hcf := configure_fetch info c
      rcases hc : configure_enabled_streams info c with ⟨r, c1⟩
      rw [hc] at hcf
      simp only at hcf
      rcases r with e | u
      · exact hcf
      · rcases hcf with ⟨h1, h2⟩ | ⟨h1, h2, h3, h4⟩
        · left
          exact ⟨h1, h2⟩
        · right
          exact ⟨h1, h2, h3, h4⟩
    · unfold start_capture
      rw [if_neg (by simp [hf])]
      left
      exact ⟨rfl, rfl⟩
  | stop =>
    left
    exact ⟨rfl, rfl⟩
  | wait fuel ev =>
    simp only [cam_step]
    rcases hw : wait_all_streams fuel ev c with _ | ⟨c1, log⟩
    · left
      exact ⟨rfl, rfl⟩
    · have hg := wait_ghost fuel ev c c1 log hw
      left
      exact ⟨hg.1, hg.2⟩

/-- The at-most-once invariant of the calibration fetch, preserved along
any operation sequence. -/
theorem run_inv_aux (info : static_camera_info) (hne : info.calib_data.intrinsics ≠ []) :
    ∀ (ops : List cam_op) (c : rs_camera),
    c.fetch_count ≤ 1 → (c.calib.intrinsics = [] ↔ c.fetch_count = 0) →
    (ops.foldl (fun c op => cam_step info op c) c).fetch_count ≤ 1 ∧
    ((ops.foldl (fun c op => cam_step info op c) c).calib.intrinsics = [] ↔
     (ops.foldl (fun c op => cam_step info op c) c).fetch_count = 0) := by
  intro ops
  induction ops with
  | nil => intro c h1 h2; exact ⟨h1, h2⟩
  | cons op rest ih =>
    intro c h1 h2
    rw [List.foldl_cons]
    apply ih
    · rcases cam_step_fetch info op c with ⟨he, _⟩ | ⟨hp, _, hemp, _⟩
      · rw [he]; exact h1
      · rw [hp, h2.mp hemp]
    · rcases cam_step_fetch info op c with ⟨he, hcal⟩ | ⟨hp, hcal, hemp, _⟩
      · rw [he, hcal]; exact h2
      · rw [hp, hcal, h2.mp hemp]
        simp [hne]

/-- Once the fetch has happened, every further operation sequence keeps
the counter at one. -/
theorem run_keep_one (info : static_camera_info) :
    ∀ (ops : List cam_op) (c : rs_camera),
    c.fetch_count = 1 → (c.calib.intrinsics = [] ↔ c.fetch_count = 0) →
    (ops.foldl (fun c op => cam_step info op c) c).fetch_count = 1 := by
  intro ops
  induction ops with
  | nil => intro c h1 _; exact h1
  | cons op rest ih =>
    intro c h1 h2
    rw [List.foldl_cons]
    rcases cam_step_fetch info op c with ⟨he, hcal⟩ | ⟨_, _, hemp, _⟩
    · exact ih _ (by rw [he]; exact h1) (by rw [he, hcal]; exact h2)
    · exfalso
      rw [h2.mp hemp] at h1
      cases h1

/-- Amended C6: across every operation sequence from a fresh session the
calibration retrieval function runs at most once; a step that runs it
starts from a not-yet-fetched state and ends with the first-handle flag
set; and once fetched, no later operation sequence fetches again.  The
catalog calibration is assumed to carry a nonempty intrinsics table. -/
theorem calibration_fetch_at_most_once (info : static_camera_info)
    (hne : info.calib_data.intrinsics ≠ []) (ops : List cam_op) :
    (run_ops info ops).fetch_count ≤ 1 ∧
    (∀ op, (cam_step info op (run_ops info ops)).fetch_count = (run_ops info ops).fetch_count ∨
      ((cam_step info op (run_ops info ops)).fetch_count = (run_ops info ops).fetch_count + 1 ∧
       (run_ops info ops).calib.intrinsics = [] ∧ (run_ops info ops).fetch_count = 0 ∧
       (cam_step info op (run_ops info ops)).first_handle = true)) ∧
    (∀ ops2, (run_ops info ops).fetch_count = 1 →
      (run_ops info (ops ++ ops2)).fetch_count = 1) := by
  have hbase1 : (rs_camera.init info).fetch_count ≤ 1 := Nat.zero_le 1
  have hbase2 : (rs_camera.init info).calib.intrinsics = [] ↔
      (rs_camera.init info).fetch_count = 0 := by
    constructor
    · intro _; rfl
    · intro _; rfl
  have hinv := run_inv_aux info hne ops (rs_camera.init info) hbase1 hbase2
  refine ⟨hinv.1, ?_, ?_⟩
  · intro op
    rcases cam_step_fetch info op (run_ops info ops) with ⟨he, _⟩ | ⟨hp, _, hemp, hfh⟩
    · left
      exact he
    · right
      exact ⟨hp, hemp, hinv.2.mp hemp, hfh⟩
  · intro ops2 hone
    show ((ops ++ ops2).foldl (fun c op => cam_step info op c) (rs_camera.init info)).fetch_count = 1
    rw [List.foldl_append]
    exact run_keep_one info ops2 _ hone hinv.2

/-- Witness for the amended C6: enabling depth and configuring on
catalog info1 fetches once, and a further stop keeps the count at
one. -/
theorem calibration_fetch_witness :
    (run_ops info1 opsW).fetch_count ≤ 1 ∧
    (run_ops info1 (opsW ++ [cam_op.stop])).fetch_count = 1 := by
  have h := calibration_fetch_at_most_once info1 (by decide) opsW
  exact ⟨h.1, h.2.2 [cam_op.stop] (by decide)⟩

/-- Counterexample to C6 as stated: the empty operation sequence invokes
the calibration retrieval function zero times, not exactly once. -/
theorem calibration_not_fetched_counterexample :
    (run_ops info1 []).fetch_count = 0 ∧ (run_ops info1 []).fetch_count ≠ 1 :=
  ⟨rfl, by decide⟩

end rsimpl
